import Mathlib

/-!
Verification development for the GifGetterBot video-to-GIF conversion bot
(src/main.py). The Python source is shallowly embedded: strings are lists of
characters, integers are Int/Nat, fallible operations return Option, and the
effects of one request (subprocess exit codes, files appearing on disk, HTTP
responses) are represented explicitly as an environment record consumed by a
pure function that returns the request outcome together with an effect trace.
-/

namespace GifGetter

/-! ### Configuration constants (src/main.py lines 29-38) -/

def MAX_GIF_DURATION : Int := 7

/-- Value 10.0 in the source; comparisons with a byte count divided by
2^20 in IEEE double are exact for counts below 2^53, so the check
`size_mb > 10.0` is embedded as `sizeBytes > 10 * 1024 * 1024`. -/
def DISCORD_BOT_MAX_UPLOAD_MB : Nat := 10

def LITTERBOX_MAX_UPLOAD_MB : Nat := 1000

/-! ### Time parser (src/main.py lines 42-54, `to_secs`)

Python `int(str)` strips surrounding whitespace, accepts an optional sign,
then a nonempty run of digits with single underscores allowed between
digits. The embedding covers the ASCII subset. `str.split` on a colon is
embedded as `splitOnColon`.
-/

def isPySpace (c : Char) : Bool :=
  c == ' ' || c == '\t' || c == '\n' || c == '\r' || c == '\x0b' || c == '\x0c'

def stripWS (cs : List Char) : List Char :=
  ((cs.dropWhile isPySpace).reverse.dropWhile isPySpace).reverse

def digitVal (c : Char) : Nat := c.toNat - 48

/-- Digits after the first one: a digit accumulates; an underscore must be
followed by a digit; anything else is a parse failure. -/
def pyDigitsAux : Nat → List Char → Option Nat
  | acc, [] => some acc
  | acc, c :: rest =>
    if c.isDigit then pyDigitsAux (10 * acc + digitVal c) rest
    else if c == '_' then
      match rest with
      | d :: rest2 => if d.isDigit then pyDigitsAux (10 * acc + digitVal d) rest2 else none
      | [] => none
    else none

def pyDigits : List Char → Option Nat
  | [] => none
  | c :: rest => if c.isDigit then pyDigitsAux (digitVal c) rest else none

/-- Embedding of Python `int(s)` on ASCII input: `some n` on success,
`none` models the `ValueError` caught by `to_secs`. -/
def pyInt (cs : List Char) : Option Int :=
  match stripWS cs with
  | '-' :: rest => (pyDigits rest).map (fun n => -(n : Int))
  | '+' :: rest => (pyDigits rest).map (fun n => (n : Int))
  | other => (pyDigits other).map (fun n => (n : Int))

/-- Embedding of Python `s.split(h)` for a colon separator: `""` splits to
`[""]`, a leading separator yields a leading empty token, and so on. -/
def splitOnColon : List Char → List (List Char)
  | [] => [[]]
  | c :: rest =>
    if c == ':' then [] :: splitOnColon rest
    else
      match splitOnColon rest with
      | t :: ts => (c :: t) :: ts
      | [] => [[c]]

def hasColon (t : List Char) : Bool := t.any (fun c => c == ':')

/-- Embedding of `list(map(int, parts))`: fails (raising the `ValueError`
that `to_secs` catches) as soon as one token fails integer parsing. -/
def parseParts : List (List Char) → Option (List Int)
  | [] => some []
  | p :: ps =>
    match pyInt p, parseParts ps with
    | some v, some vs => some (v :: vs)
    | _, _ => none

/-- Embedding of the padding loop `while len(parts) < 3: parts.insert(0, 0)`
followed by `parts[0]*3600 + parts[1]*60 + parts[2]`; with more than three
parts no padding happens and indices 0, 1, 2 still pick the first three. -/
def weighted3 (ps : List Int) : Int :=
  let padded := List.replicate (3 - ps.length) 0 ++ ps
  padded.getD 0 0 * 3600 + padded.getD 1 0 * 60 + padded.getD 2 0

/-- Embedding of `to_secs` on a character list. -/
def to_secsL (t : List Char) : Option Int :=
  if hasColon t then
    match parseParts (splitOnColon t) with
    | some parts => some (weighted3 parts)
    | none => none
  else pyInt t

/-- `to_secs` from src/main.py lines 42-54: converts an HH:MM:SS, MM:SS or
SS string to seconds, returning `none` in place of Python `None`. -/
def to_secs (t : String) : Option Int := to_secsL t.data

/-! ### Crop detector (src/main.py lines 56-91, `detect_crop_values`)

The detection pass is a subprocess; its observable inputs here are the exit
code and the list of strings captured by the regex
`crop=(\d+:\d+:\d+:\d+)` over its stderr, in emission order. The source
takes the last match, splits it on colons, unpacks exactly four integers
(a failed unpack raises `ValueError`, caught and degraded to no crop), and
accepts it only when width and height are positive.
-/

def cropTag : List Char := 'c' :: 'r' :: 'o' :: 'p' :: '=' :: []

def detect_crop_values (returncode : Int) (cropMatches : List (List Char)) :
    Option (List Char) :=
  match cropMatches.getLast? with
  | none => none
  | some m =>
    match parseParts (splitOnColon m) with
    | some [w, h, _x, _y] =>
      if 0 < w ∧ 0 < h then some (cropTag ++ m) else none
    | _ => none

/-! ### Litterbox uploader (src/main.py lines 93-127, `upload_to_litterbox`)

Observable inputs: whether the file exists, its byte size, and the HTTP
response (`none` models an exception during the request, which the source
catches and turns into `None`). The source compares
`size_bytes / (1024*1024) > 1000` in IEEE double, which for sizes below
2^53 equals `sizeBytes > 1000 * 1024 * 1024`. Success requires status 200
and a body starting with `http://` or `https://`.
-/

def strStarts (pre s : List Char) : Bool := pre.isPrefixOf s

def upload_to_litterbox (fileExists : Bool) (sizeBytes : Nat)
    (resp : Option (Nat × List Char)) (_time_expiry : List Char) :
    Option (List Char) :=
  if !fileExists then none
  else if sizeBytes > LITTERBOX_MAX_UPLOAD_MB * 1024 * 1024 then none
  else
    match resp with
    | none => none
    | some (status, text) =>
      if status == 200 && (strStarts "http://".data text || strStarts "https://".data text)
      then some text
      else none

/-! ### Conversion orchestrator (src/main.py lines 188-328,
`process_and_convert_to_gif`)

One request consumes a `PipelineEnv` describing every external effect the
body can observe: input-file existence, the crop-detection pass output, the
two ffmpeg pass exit codes and output files, the Litterbox HTTP response
and the Discord upload result. The function returns the outcome plus a
trace of which external tools ran, which uploads were attempted, and the
temporary-file disk state before and after the `finally` cleanup block.
-/

/-- Result of the Discord attachment upload attempt at lines 301-308:
success, an HTTPException with status 413 or code 40005 (handled as Error
4013a), or any other HTTPException (re-raised, caught at line 310). -/
inductive DiscordUp where
  | ok
  | tooLarge
  | otherError
deriving DecidableEq, Repr

structure PipelineEnv where
  /-- `os.path.exists(input_source)` at entry, meaningful for file uploads. -/
  inputExists : Bool
  /-- Exit code of the cropdetect pass. -/
  cropRc : Int
  /-- Strings captured by the crop regex over the cropdetect stderr. -/
  cropMatches : List (List Char)
  /-- Exit code of the palette pass. -/
  p1Rc : Int
  /-- Whether the palette pass left a palette file on disk. -/
  p1Out : Bool
  /-- Exit code of the render pass. -/
  p2Rc : Int
  /-- Render pass output: `none` if no GIF file exists, else its byte size. -/
  p2Out : Option Nat
  /-- Litterbox HTTP response: status and body, `none` for an exception. -/
  hostResp : Option (Nat × List Char)
  /-- Result of the Discord attachment upload, when attempted. -/
  discordUpload : DiscordUp
deriving Repr

/-- Presence on disk of the three per-request temporary artifacts. -/
structure DiskState where
  input : Bool
  palette : Bool
  gif : Bool
deriving DecidableEq, Repr

/-- Terminal outcome of one orchestration run, tagged with the data each
user-facing message names (src/main.py error codes in comments). -/
inductive Outcome where
  | inputMissing
  | paletteFailed
  | renderFailed
  | emptyGif
  | tooLargeForHost (sizeBytes : Nat) (limitMB : Nat)
  | hostedLink (url : List Char) (expiry : List Char)
  | hostUploadFailed
  | tooLargeForInline (sizeBytes : Nat) (limitMB : Nat)
  | delivered
  | inlineRejectedByPlatform (sizeBytes : Nat)
  | discordApiError
deriving DecidableEq, Repr

structure OrchTrace where
  outcome : Outcome
  cropRan : Bool
  p1Ran : Bool
  p2Ran : Bool
  hostUploadAttempted : Bool
  discordUploadAttempted : Bool
  diskBeforeCleanup : DiskState
  diskAfterCleanup : DiskState
deriving DecidableEq, Repr

/-- The `finally` block at lines 321-328: removes the palette and GIF
files, and the local input file when the request was a file upload. -/
def cleanup (is_file_upload : Bool) (d : DiskState) : DiskState :=
  { input := d.input && !is_file_upload, palette := false, gif := false }

def mkTrace (is_file_upload : Bool) (o : Outcome)
    (crop p1 p2 host dis : Bool) (d : DiskState) : OrchTrace :=
  { outcome := o, cropRan := crop, p1Ran := p1, p2Ran := p2,
    hostUploadAttempted := host, discordUploadAttempted := dis,
    diskBeforeCleanup := d, diskAfterCleanup := cleanup is_file_upload d }

/-- Expiry map at line 281 with the `.get(value, "1h")` default. -/
def expiryMap : List (String × List Char) :=
  [("litterbox_1h", "1h".data), ("litterbox_12h", "12h".data),
   ("litterbox_24h", "24h".data), ("litterbox_72h", "72h".data)]

def lookupExpiry (v : String) : List Char :=
  ((expiryMap.find? (fun p => p.1 == v)).map Prod.snd).getD "1h".data

def process_and_convert_to_gif (is_file_upload : Bool)
    (output_destination_value : String) (env : PipelineEnv) : OrchTrace :=
  let inputDisk : Bool := is_file_upload && env.inputExists
  if is_file_upload && !env.inputExists then
    -- Error 2003: input file path missing internally
    mkTrace is_file_upload .inputMissing false false false false false
      ⟨inputDisk, false, false⟩
  else
    -- crop detection runs next; its result only selects filter strings
    let _crop := detect_crop_values env.cropRc env.cropMatches
    if env.p1Rc != 0 then
      -- Error 2006a: failed palette generation
      mkTrace is_file_upload .paletteFailed true true false false false
        ⟨inputDisk, env.p1Out, false⟩
    else
      let gifExists := env.p2Out.isSome
      let gifSize := env.p2Out.getD 0
      let disk : DiskState := ⟨inputDisk, env.p1Out, gifExists⟩
      if env.p2Rc != 0 && (!gifExists || gifSize == 0) then
        -- Error 2007a: failed conversion or empty file
        mkTrace is_file_upload .renderFailed true true true false false disk
      else if !gifExists || gifSize == 0 then
        -- Error 2008a: empty file despite zero exit
        mkTrace is_file_upload .emptyGif true true true false false disk
      else if strStarts "litterbox".data output_destination_value.data then
        let expiry := lookupExpiry output_destination_value
        if gifSize > LITTERBOX_MAX_UPLOAD_MB * 1024 * 1024 then
          -- Error 3001: generated GIF larger than the Litterbox maximum
          mkTrace is_file_upload (.tooLargeForHost gifSize LITTERBOX_MAX_UPLOAD_MB)
            true true true false false disk
        else
          match upload_to_litterbox gifExists gifSize env.hostResp expiry with
          | some url =>
            mkTrace is_file_upload (.hostedLink url expiry) true true true true false disk
          | none =>
            -- Error 3000: failed to upload to Litterbox
            mkTrace is_file_upload .hostUploadFailed true true true true false disk
      else
        if gifSize > DISCORD_BOT_MAX_UPLOAD_MB * 1024 * 1024 then
          -- Error 2004a: generated GIF larger than the Discord maximum
          mkTrace is_file_upload (.tooLargeForInline gifSize DISCORD_BOT_MAX_UPLOAD_MB)
            true true true false false disk
        else
          match env.discordUpload with
          | .ok => mkTrace is_file_upload .delivered true true true false true disk
          | .tooLarge =>
            -- Error 4013a: platform refused the attachment as too large
            mkTrace is_file_upload (.inlineRejectedByPlatform gifSize)
              true true true false true disk
          | .otherError =>
            mkTrace is_file_upload .discordApiError true true true false true disk

/-! ### The /filegif command handler (src/main.py lines 339-395, `filegif`)

The handler validates the attachment (extension, size), saves it to a
per-request temporary path, parses and validates the time range, and only
then calls the conversion orchestrator. It has no cleanup of its own: the
returned Bool records whether the downloaded input file is on disk when
control leaves the validation sequence (true on every return after the
`video_file.save` call at line 361, since no path before the orchestrator
call deletes it).
-/

structure FilegifRequest where
  filename : String
  /-- Attachment byte size. -/
  size : Nat
  /-- Whether `video_file.save` completes without raising. -/
  saveOk : Bool
  start_time : String
  end_time : String
deriving Repr

inductive FilegifExit where
  /-- Error 2001: extension not in the allowed list. -/
  | unsupportedFormat
  /-- Error 2000: attachment larger than 200 MB. -/
  | inputTooLarge
  /-- Error 2005c path: exception while saving the attachment. -/
  | saveFailed
  /-- Error 2010: a time string failed to parse. -/
  | invalidTimeFormat
  /-- Error 2011: start time negative. -/
  | negativeStart
  /-- Error 2012: start time not before end time. -/
  | startNotBeforeEnd
  /-- Error 2014: duration not positive. -/
  | durationNonpos
  /-- Error 2013: duration above MAX_GIF_DURATION. -/
  | durationTooLong
  /-- Control reaches the orchestrator call at line 386. -/
  | conversionCall
deriving DecidableEq, Repr

def VIDEO_EXTS : List String := [".mp4", ".mov", ".avi", ".mkv", ".webm"]

def lowerL (cs : List Char) : List Char := cs.map Char.toLower

/-- Embedding of `video_file.filename.lower().endswith((".mp4", ...))`. -/
def extOk (filename : String) : Bool :=
  VIDEO_EXTS.any (fun e => e.data.isSuffixOf (lowerL filename.data))

/-- Runs the /filegif validation sequence; the Bool is true when the saved
input file is on disk at that exit. -/
def filegifRun (r : FilegifRequest) : FilegifExit × Bool :=
  if !(extOk r.filename) then (.unsupportedFormat, false)
  else if r.size > 200 * 1024 * 1024 then (.inputTooLarge, false)
  else if !r.saveOk then (.saveFailed, false)
  else
    match to_secs r.start_time, to_secs r.end_time with
    | none, _ => (.invalidTimeFormat, true)
    | some _, none => (.invalidTimeFormat, true)
    | some s, some e =>
      if s < 0 then (.negativeStart, true)
      else if s ≥ e then (.startNotBeforeEnd, true)
      else if e - s ≤ 0 then (.durationNonpos, true)
      else if e - s > MAX_GIF_DURATION then (.durationTooLong, true)
      else (.conversionCall, true)

/-! ### The /linkgif command handler (src/main.py lines 407-503, `linkgif`)

Media resolution through yt-dlp is external; its observable result is
whether it reported an error, the direct media URL, and the nullable
source duration. When the duration is null the handler probes it with
ffprobe (line 449-464) before any time parsing or duration check; the
returned Bool records whether that ffprobe subprocess was invoked.
-/

structure LinkgifEnv where
  /-- yt-dlp raised or returned an error entry (or no url key). -/
  resolveError : Bool
  mediaUrl : Option (List Char)
  /-- Duration reported by yt-dlp, when present. -/
  srcDuration : Option ℚ
  /-- Duration reported by ffprobe when invoked, `none` on probe failure. -/
  ffprobeResult : Option ℚ
  start_time : String
  end_time : String
deriving Repr

inductive LinkgifExit where
  /-- Error 1007c / 1007d: no usable media URL. -/
  | resolveFailed
  /-- Error 1001a. -/
  | invalidTimeFormat
  /-- Error 1002a: bounds check against a known source duration. -/
  | outOfBounds
  /-- Error 1002b: negative start with unknown source duration. -/
  | negativeStart
  /-- Error 1001b. -/
  | startNotBeforeEnd
  /-- Error 1001c. -/
  | durationNonpos
  /-- Error 1005a. -/
  | durationTooLong
  /-- Control reaches the orchestrator call at line 494. -/
  | conversionCall
deriving DecidableEq, Repr

/-- Checks shared by both duration-knowledge branches (lines 481-491). -/
def orderAndDurationChecks (s e : Int) (probed : Bool) : LinkgifExit × Bool :=
  if s ≥ e then (.startNotBeforeEnd, probed)
  else if e - s ≤ 0 then (.durationNonpos, probed)
  else if e - s > MAX_GIF_DURATION then (.durationTooLong, probed)
  else (.conversionCall, probed)

/-- Runs the /linkgif validation sequence; the Bool is true when the
ffprobe duration subprocess was invoked. -/
def linkgifRun (env : LinkgifEnv) : LinkgifExit × Bool :=
  if env.resolveError || env.mediaUrl.isNone then (.resolveFailed, false)
  else
    let probed := env.srcDuration.isNone
    let dur : Option ℚ :=
      match env.srcDuration with
      | some d => some d
      | none => env.ffprobeResult
    match to_secs env.start_time, to_secs env.end_time with
    | none, _ => (.invalidTimeFormat, probed)
    | some _, none => (.invalidTimeFormat, probed)
    | some s, some e =>
      match dur with
      | some d =>
        if s < 0 || (e : ℚ) > d then (.outOfBounds, probed)
        else orderAndDurationChecks s e probed
      | none =>
        if s < 0 then (.negativeStart, probed)
        else orderAndDurationChecks s e probed

/-! ### Python call binding at the orchestrator call sites

`process_and_convert_to_gif` declares six parameters (lines 188-195). The
calls at lines 386 and 494 pass six positional arguments (the sixth being
the string literal for the removed quality option) plus the keyword
argument named in `keywords`. Python binds positional arguments to the
leftmost parameters, then keyword arguments by name; binding the same
parameter twice, or a keyword that names no parameter, or more positional
arguments than parameters, raises `TypeError`.
-/

def processParams : List String :=
  ["interaction", "input_source", "start_seconds_abs", "duration_seconds",
   "output_destination_value", "is_file_upload"]

structure PyCall where
  positionalCount : Nat
  keywords : List String
deriving Repr

/-- Number of values the call binds to parameter `p`. -/
def bindCount (params : List String) (c : PyCall) (p : String) : Nat :=
  (if params.indexOf p < c.positionalCount then 1 else 0) + c.keywords.count p

/-- The call succeeds (no `TypeError`) precisely when every parameter
receives exactly one value, every keyword names a parameter, and the
positional arguments do not outnumber the parameters. -/
def callWellFormed (params : List String) (c : PyCall) : Bool :=
  decide (c.positionalCount ≤ params.length)
    && c.keywords.all (fun k => params.contains k)
    && params.all (fun p => bindCount params c p == 1)

/-- The call at src/main.py line 386 (line 494 has the same shape). -/
def filegifConversionCall : PyCall :=
  { positionalCount := 6, keywords := ["is_file_upload"] }

/-! ### Helper lemmas about the split and token parse -/

def noColon (t : List Char) : Bool := t.all (fun c => !(c == ':'))

theorem splitOnColon_noColon :
    ∀ (a : List Char), noColon a = true → splitOnColon a = [a] := by
  intro a
  induction a with
  | nil => intro _; rfl
  | cons c a ih =>
    intro h
    simp only [noColon, List.all_cons, Bool.and_eq_true, Bool.not_eq_true',
      beq_eq_false_iff_ne, ne_eq] at h
    obtain ⟨hc, ha⟩ := h
    have hrec := ih (by simpa [noColon] using ha)
    simp [splitOnColon, hc, hrec]

theorem splitOnColon_append_colon :
    ∀ (a r : List Char), noColon a = true →
      splitOnColon (a ++ ':' :: r) = a :: splitOnColon r := by
  intro a
  induction a with
  | nil => intro r _; simp [splitOnColon]
  | cons c a ih =>
    intro r h
    simp only [noColon, List.all_cons, Bool.and_eq_true, Bool.not_eq_true',
      beq_eq_false_iff_ne, ne_eq] at h
    obtain ⟨hc, ha⟩ := h
    have hrec := ih r (by simpa [noColon] using ha)
    simp [splitOnColon, hc, hrec]

theorem hasColon_append_colon (a r : List Char) :
    hasColon (a ++ ':' :: r) = true := by
  simp [hasColon]

theorem hasColon_eq_false_of_noColon (a : List Char) (h : noColon a = true) :
    hasColon a = false := by
  simp only [noColon, List.all_eq_true] at h
  simp only [hasColon, List.any_eq_true, not_exists]
  by_contra hx
  rw [Bool.not_eq_false, List.any_eq_true] at hx
  obtain ⟨c, hc, hcc⟩ := hx
  have := h c hc
  simp_all

theorem parseParts_none_of_mem :
    ∀ (ts : List (List Char)) (p : List Char), p ∈ ts → pyInt p = none →
      parseParts ts = none := by
  intro ts
  induction ts with
  | nil => intro p hp; exact absurd hp (List.not_mem_nil p)
  | cons q ts ih =>
    intro p hp hnone
    rcases List.mem_cons.mp hp with h | h
    · subst h
      simp [parseParts, hnone]
    · have := ih p h hnone
      simp [parseParts, this]

/-! ### Claim theorems -/

/-- C5: the time parser returns 45 for input "45", 90 for input "1:30",
and 90 for input "0:01:30". -/
theorem to_secs_examples :
    to_secs "45" = some 45 ∧ to_secs "1:30" = some 90 ∧
    to_secs "0:01:30" = some 90 := by decide

/-- C4 counterexample: the claim says the parser signals InvalidFormat for
every string that is not of the form SS, MM:SS or HH:MM:SS, in particular
for a string with more than three colon-separated components; but on
"1:2:3:4" the code returns 3723 (weighting the first three components and
ignoring the fourth), not a failure. -/
theorem to_secs_four_components :
    to_secs "1:2:3:4" = some 3723 ∧ to_secs "1:2:3:4" ≠ none := by decide

/-- C4 (amended): for every input string the parser either returns integer
total seconds or signals InvalidFormat; on colon-separated forms with up to
three numeric components it returns 3600*HH + 60*MM + SS with missing left
components treated as zero; it signals InvalidFormat whenever some
colon-separated token is not numeric (and, without a colon, whenever the
whole string is not numeric); but an input with MORE than three numeric
colon-separated components is not rejected: the value is computed from the
first three components and the rest are ignored. -/
theorem to_secs_amended :
    (∀ a b c : List Char, ∀ va vb vc : Int,
        noColon a = true → noColon b = true → noColon c = true →
        pyInt a = some va → pyInt b = some vb → pyInt c = some vc →
        to_secsL (a ++ ':' :: (b ++ ':' :: c)) = some (va * 3600 + vb * 60 + vc))
  ∧ (∀ a b : List Char, ∀ va vb : Int,
        noColon a = true → noColon b = true →
        pyInt a = some va → pyInt b = some vb →
        to_secsL (a ++ ':' :: b) = some (va * 60 + vb))
  ∧ (∀ a : List Char, noColon a = true → to_secsL a = pyInt a)
  ∧ (∀ t p : List Char, hasColon t = true → p ∈ splitOnColon t →
        pyInt p = none → to_secsL t = none)
  ∧ (∀ a b c d : List Char, ∀ va vb vc vd : Int,
        noColon a = true → noColon b = true → noColon c = true → noColon d = true →
        pyInt a = some va → pyInt b = some vb → pyInt c = some vc → pyInt d = some vd →
        to_secsL (a ++ ':' :: (b ++ ':' :: (c ++ ':' :: d))) =
          some (va * 3600 + vb * 60 + vc)) := by
  refine ⟨?_, ?_, ?_, ?_, ?_⟩
  · intro a b c va vb vc hna hnb hnc hva hvb hvc
    have hsplit : splitOnColon (a ++ ':' :: (b ++ ':' :: c)) = a :: b :: [c] := by
      rw [splitOnColon_append_colon a _ hna, splitOnColon_append_colon b _ hnb,
          splitOnColon_noColon c hnc]
    simp [to_secsL, hasColon_append_colon, hsplit, parseParts, hva, hvb, hvc, weighted3]
  · intro a b va vb hna hnb hva hvb
    have hsplit : splitOnColon (a ++ ':' :: b) = a :: [b] := by
      rw [splitOnColon_append_colon a _ hna, splitOnColon_noColon b hnb]
    simp [to_secsL, hasColon_append_colon, hsplit, parseParts, hva, hvb, weighted3]
  · intro a hna
    simp [to_secsL, hasColon_eq_false_of_noColon a hna]
  · intro t p hcol hp hnone
    simp [to_secsL, hcol, parseParts_none_of_mem _ _ hp hnone]
  · intro a b c d va vb vc vd hna hnb hnc hnd hva hvb hvc hvd
    have hsplit : splitOnColon (a ++ ':' :: (b ++ ':' :: (c ++ ':' :: d))) =
        a :: b :: c :: [d] := by
      rw [splitOnColon_append_colon a _ hna, splitOnColon_append_colon b _ hnb,
          splitOnColon_append_colon c _ hnc, splitOnColon_noColon d hnd]
    simp [to_secsL, hasColon_append_colon, hsplit, parseParts, hva, hvb, hvc, hvd,
      weighted3]

/-- Witness for C4 (amended) at the concrete input "1:2:3". -/
theorem to_secs_amended_witness :
    to_secsL ("1".data ++ ':' :: ("2".data ++ ':' :: "3".data)) =
      some (1 * 3600 + 2 * 60 + 3) :=
  to_secs_amended.1 "1".data "2".data "3".data 1 2 3 (by decide) (by decide)
    (by decide) (by decide) (by decide) (by decide)

/-- C6: the crop detector selects the last crop rectangle reported during
the pass; it returns a crop exactly when that last rectangle parses to four
integers with positive width and height, and returns no crop in every
other case (no match, or nonpositive dimensions); the exit code of the
detection pass never changes the result, so a failed pass degrades to no
crop instead of failing the request. -/
theorem detect_crop_values_spec (rc : Int) (ms : List (List Char)) :
    detect_crop_values rc ms = detect_crop_values 0 ms
  ∧ (ms.getLast? = none → detect_crop_values rc ms = none)
  ∧ (∀ r, detect_crop_values rc ms = some r →
      ∃ m w h x y, ms.getLast? = some m ∧ r = cropTag ++ m ∧
        parseParts (splitOnColon m) = some [w, h, x, y] ∧ 0 < w ∧ 0 < h)
  ∧ (∀ m w h x y, ms.getLast? = some m →
      parseParts (splitOnColon m) = some [w, h, x, y] → w ≤ 0 ∨ h ≤ 0 →
      detect_crop_values rc ms = none) := by
  refine ⟨rfl, ?_, ?_, ?_⟩
  · intro h
    simp [detect_crop_values, h]
  · intro r hr
    cases hlast : ms.getLast? with
    | none => simp [detect_crop_values, hlast] at hr
    | some m =>
      cases hp : parseParts (splitOnColon m) with
      | none => simp [detect_crop_values, hlast, hp] at hr
      | some ps =>
        rcases ps with _ | ⟨w, _ | ⟨h, _ | ⟨x, _ | ⟨y, _ | ⟨z, tl⟩⟩⟩⟩⟩ <;>
          simp [detect_crop_values, hlast, hp] at hr
        obtain ⟨⟨hw, hh⟩, hcm⟩ := hr
        exact ⟨m, w, h, x, y, rfl, hcm.symm, hp, hw, hh⟩
  · intro m w h x y hlast hparse hwh
    simp only [detect_crop_values, hlast, hparse]
    rw [if_neg]
    rintro ⟨hw, hh⟩
    rcases hwh with hle | hle <;> omega

/-- Witness for C6: a concrete run whose pass exited nonzero yet reported
the rectangle 640:480:0:0 last; the detector accepts it. -/
theorem detect_crop_values_spec_witness :
    ∃ m w h x y, ["640:480:0:0".data].getLast? = some m ∧
      cropTag ++ "640:480:0:0".data = cropTag ++ m ∧
      parseParts (splitOnColon m) = some [w, h, x, y] ∧ 0 < w ∧ 0 < h :=
  (detect_crop_values_spec 1 ["640:480:0:0".data]).2.2.1
    (cropTag ++ "640:480:0:0".data) (by decide)

/-- C7: on a render pass that exits nonzero, the request fails with
GifRenderFailed exactly when no output GIF exists or the output is empty;
when a nonempty GIF exists the nonzero exit is treated as
success-with-truncation and the run proceeds past both render-failure
checks into size checking and routing. -/
theorem render_nonzero_exit_spec (ifu : Bool) (dest : String) (env : PipelineEnv)
    (hin : (ifu && !env.inputExists) = false)
    (hp1 : env.p1Rc = 0)
    (hp2 : env.p2Rc ≠ 0) :
    ((env.p2Out = none ∨ env.p2Out = some 0) →
      (process_and_convert_to_gif ifu dest env).outcome = .renderFailed)
  ∧ (∀ n, env.p2Out = some n → 0 < n →
      (process_and_convert_to_gif ifu dest env).outcome ≠ .renderFailed ∧
      (process_and_convert_to_gif ifu dest env).outcome ≠ .emptyGif) := by
  constructor
  · intro hout
    rcases hout with h | h <;>
      simp [process_and_convert_to_gif, hin, hp1, hp2, h, mkTrace]
  · intro n hn hpos
    have hne : (n == 0) = false := by simp; omega
    simp only [process_and_convert_to_gif, hin, hp1, hn, mkTrace]
    simp only [Option.isSome_some, Option.getD_some, Bool.not_true, hne,
      Bool.or_false, Bool.and_false, Bool.false_or, bne_self_eq_false,
      Bool.false_eq_true, if_false]
    by_cases hd : strStarts "litterbox".data dest.data = true
    · by_cases hbig : LITTERBOX_MAX_UPLOAD_MB * 1024 * 1024 < n
      · simp [hd, hbig]
      · rcases hup : upload_to_litterbox true n env.hostResp (lookupExpiry dest) with _ | url <;>
          simp [hd, hbig, hup]
    · by_cases hbig : DISCORD_BOT_MAX_UPLOAD_MB * 1024 * 1024 < n
      · simp [hd, hbig]
      · cases hdu : env.discordUpload <;> simp [hd, hbig, hdu]

/-- Witness for C7: a run whose render pass exited with code 1 leaving an
empty GIF file reports the fatal render failure. -/
theorem render_nonzero_exit_spec_witness :
    (process_and_convert_to_gif false "discord"
      ⟨true, 0, [], 0, true, 1, some 0, none, .ok⟩).outcome = .renderFailed :=
  (render_nonzero_exit_spec false "discord"
    ⟨true, 0, [], 0, true, 1, some 0, none, .ok⟩
    (by decide) (by decide) (by decide)).1 (Or.inr rfl)

/-- C8: for an inline (Discord) destination whose generated GIF exceeds
the 10 MB attachment limit, the run rejects with an outcome naming the
observed size and the limit, attempts no upload of any kind, and the
cleanup still removes the GIF and palette artifacts. -/
theorem inline_too_large_spec (ifu : Bool) (dest : String) (env : PipelineEnv) (n : Nat)
    (hin : (ifu && !env.inputExists) = false)
    (hp1 : env.p1Rc = 0)
    (hgif : env.p2Out = some n)
    (hpos : 0 < n)
    (hdest : strStarts "litterbox".data dest.data = false)
    (hbig : n > DISCORD_BOT_MAX_UPLOAD_MB * 1024 * 1024) :
    (process_and_convert_to_gif ifu dest env).outcome =
        .tooLargeForInline n DISCORD_BOT_MAX_UPLOAD_MB
  ∧ (process_and_convert_to_gif ifu dest env).discordUploadAttempted = false
  ∧ (process_and_convert_to_gif ifu dest env).hostUploadAttempted = false
  ∧ (process_and_convert_to_gif ifu dest env).diskAfterCleanup.gif = false
  ∧ (process_and_convert_to_gif ifu dest env).diskAfterCleanup.palette = false := by
  have hne : (n == 0) = false := by simp; omega
  simp [process_and_convert_to_gif, hin, hp1, hgif, hne, hdest, hbig, mkTrace, cleanup]

/-- Witness for C8: an 11 MB GIF for the Discord destination. -/
theorem inline_too_large_spec_witness :
    (process_and_convert_to_gif true "discord"
        ⟨true, 0, [], 0, true, 0, some 11534336, none, .ok⟩).outcome =
      .tooLargeForInline 11534336 DISCORD_BOT_MAX_UPLOAD_MB
  ∧ (process_and_convert_to_gif true "discord"
        ⟨true, 0, [], 0, true, 0, some 11534336, none, .ok⟩).discordUploadAttempted = false
  ∧ (process_and_convert_to_gif true "discord"
        ⟨true, 0, [], 0, true, 0, some 11534336, none, .ok⟩).hostUploadAttempted = false
  ∧ (process_and_convert_to_gif true "discord"
        ⟨true, 0, [], 0, true, 0, some 11534336, none, .ok⟩).diskAfterCleanup.gif = false
  ∧ (process_and_convert_to_gif true "discord"
        ⟨true, 0, [], 0, true, 0, some 11534336, none, .ok⟩).diskAfterCleanup.palette = false :=
  inline_too_large_spec true "discord" ⟨true, 0, [], 0, true, 0, some 11534336, none, .ok⟩
    11534336 (by decide) (by decide) (by decide) (by decide) (by decide) (by decide)

/-- C9: for a hosted-link (Litterbox) destination the router first rejects
oversized GIFs against the hosting ceiling without attempting an upload;
otherwise it attempts the upload with the expiry mapped from the requested
destination and reports the returned URL on success or the upload failure
on non-success. -/
theorem hosted_routing_spec (ifu : Bool) (dest : String) (env : PipelineEnv) (n : Nat)
    (hin : (ifu && !env.inputExists) = false)
    (hp1 : env.p1Rc = 0)
    (hgif : env.p2Out = some n)
    (hpos : 0 < n)
    (hdest : strStarts "litterbox".data dest.data = true) :
    (n > LITTERBOX_MAX_UPLOAD_MB * 1024 * 1024 →
      (process_and_convert_to_gif ifu dest env).outcome =
          .tooLargeForHost n LITTERBOX_MAX_UPLOAD_MB ∧
      (process_and_convert_to_gif ifu dest env).hostUploadAttempted = false)
  ∧ (n ≤ LITTERBOX_MAX_UPLOAD_MB * 1024 * 1024 →
      (process_and_convert_to_gif ifu dest env).hostUploadAttempted = true ∧
      (∀ url, upload_to_litterbox true n env.hostResp (lookupExpiry dest) = some url →
        (process_and_convert_to_gif ifu dest env).outcome =
          .hostedLink url (lookupExpiry dest)) ∧
      (upload_to_litterbox true n env.hostResp (lookupExpiry dest) = none →
        (process_and_convert_to_gif ifu dest env).outcome = .hostUploadFailed)) := by
  have hne : (n == 0) = false := by simp; omega
  constructor
  · intro hbig
    simp [process_and_convert_to_gif, hin, hp1, hgif, hne, hdest, hbig, mkTrace]
  · intro hsmall
    have hnbig : ¬ (LITTERBOX_MAX_UPLOAD_MB * 1024 * 1024 < n) := by omega
    refine ⟨?_, ?_, ?_⟩
    · rcases hup : upload_to_litterbox true n env.hostResp (lookupExpiry dest) with _ | url <;>
        simp [process_and_convert_to_gif, hin, hp1, hgif, hne, hdest, hnbig, hup, mkTrace]
    · intro url hup
      simp [process_and_convert_to_gif, hin, hp1, hgif, hne, hdest, hnbig, hup, mkTrace]
    · intro hup
      simp [process_and_convert_to_gif, hin, hp1, hgif, hne, hdest, hnbig, hup, mkTrace]

/-- Witness for C9: a 5000-byte GIF bound for litterbox_12h whose upload
returns status 200 and an https URL; the run reports the hosted link with
the 12h expiry. -/
theorem hosted_routing_spec_witness :
    (process_and_convert_to_gif true "litterbox_12h"
        ⟨true, 0, [], 0, true, 0, some 5000,
          some (200, "https://litter.catbox.moe/x.gif".data), .ok⟩).outcome =
      .hostedLink "https://litter.catbox.moe/x.gif".data (lookupExpiry "litterbox_12h") :=
  ((hosted_routing_spec true "litterbox_12h"
      ⟨true, 0, [], 0, true, 0, some 5000,
        some (200, "https://litter.catbox.moe/x.gif".data), .ok⟩
      5000 (by decide) (by decide) (by decide) (by decide) (by decide)).2
    (by decide)).2.1 "https://litter.catbox.moe/x.gif".data (by decide)

/-- C10: /filegif rejects before saving anything when the attachment
filename does not end, case-insensitively, in one of .mp4 .mov .avi .mkv
.webm, or when the attachment exceeds 200 * 1024 * 1024 bytes; at both
exits the downloaded-input flag is false, so no temporary artifact was
created. -/
theorem filegif_early_reject_spec (r : FilegifRequest) :
    (extOk r.filename = false → filegifRun r = (.unsupportedFormat, false))
  ∧ (extOk r.filename = true → r.size > 200 * 1024 * 1024 →
      filegifRun r = (.inputTooLarge, false)) := by
  constructor
  · intro h
    simp [filegifRun, h]
  · intro h hs
    simp [filegifRun, h, hs]

/-- Witness for C10: a .txt attachment is rejected with nothing saved. -/
theorem filegif_early_reject_spec_witness :
    filegifRun ⟨"clip.txt", 1, true, "0", "5"⟩ = (.unsupportedFormat, false) :=
  (filegif_early_reject_spec ⟨"clip.txt", 1, true, "0", "5"⟩).1 (by decide)

/-- C1: evaluation at the failing input. The /filegif handler saves the
attachment at line 361 before parsing the time strings, and its
validation-failure returns (here Error 2010, invalid time format) have no
cleanup, so the downloaded input file named from the request identifier is
still on disk when the request terminates. -/
theorem filegif_leaks_input_on_invalid_time :
    filegifRun ⟨"a.mp4", 1, true, "abc", "5"⟩ = (.invalidTimeFormat, true) := by
  decide

/-- C2: evaluation at the failing call. The orchestrator declares six
parameters but the handler call supplies six positional arguments plus the
keyword is_file_upload, so is_file_upload receives two values and Python
raises TypeError before the pipeline can run; the call is not well-formed. -/
theorem conversion_call_malformed :
    callWellFormed processParams filegifConversionCall = false
  ∧ bindCount processParams filegifConversionCall "is_file_upload" = 2 := by
  decide

/-- C3 counterexample: a /filegif request with duration 10s is rejected at
the duration check with the downloaded input file already saved on disk
(second component true), and a /linkgif request with unknown source
duration invokes the ffprobe subprocess (second component true) before its
duration rejection; the claim asserted no artifact is created and no
subprocess is invoked before the rejection. -/
theorem duration_reject_counterexample :
    filegifRun ⟨"a.mp4", 1, true, "0", "10"⟩ = (.durationTooLong, true)
  ∧ linkgifRun ⟨false, some "u".data, none, some 30, "0", "10"⟩ =
      (.durationTooLong, true) := by
  decide

/-- C3 (amended): every request whose computed duration exceeds
MAX_GIF_DURATION is rejected before the conversion pipeline is invoked
(the exit is the duration rejection, not the orchestrator call, so no
ffmpeg pass runs and no palette or GIF artifact is created); however, for
a local-file request the input file has already been saved to disk before
the check, and for a URL request whose resolved duration is unknown the
ffprobe subprocess runs before the check (when the resolved duration is
known, no ffprobe runs). -/
theorem duration_reject_amended :
    (∀ (r : FilegifRequest) (s e : Int),
        extOk r.filename = true → r.size ≤ 200 * 1024 * 1024 → r.saveOk = true →
        to_secs r.start_time = some s → to_secs r.end_time = some e →
        0 ≤ s → s < e → e - s > MAX_GIF_DURATION →
        filegifRun r = (.durationTooLong, true))
  ∧ (∀ (env : LinkgifEnv) (s e : Int) (d : ℚ),
        env.resolveError = false → env.mediaUrl.isNone = false →
        env.srcDuration = some d →
        to_secs env.start_time = some s → to_secs env.end_time = some e →
        0 ≤ s → (e : ℚ) ≤ d → s < e → e - s > MAX_GIF_DURATION →
        linkgifRun env = (.durationTooLong, false))
  ∧ (∀ env : LinkgifEnv,
        env.resolveError = false → env.mediaUrl.isNone = false →
        env.srcDuration = none → (linkgifRun env).2 = true) := by
  refine ⟨?_, ?_, ?_⟩
  · intro r s e hext hsize hsave hst het hs0 hse hlong
    have hns : ¬ (r.size > 200 * 1024 * 1024) := by omega
    have h1 : ¬ s < 0 := by omega
    have h2 : ¬ s ≥ e := by omega
    have h3 : ¬ (e - s ≤ 0) := by omega
    simp [filegifRun, hext, hns, hsave, hst, het, h1, h2, h3, hlong]
  · intro env s e d hre hurl hdur hst het hs0 hed hse hlong
    have hcond : (env.resolveError || env.mediaUrl.isNone) = false := by
      simp [hre, hurl]
    have h1 : ¬ s < 0 := by omega
    have hgt : ¬ ((e : ℚ) > d) := not_lt.mpr hed
    have h2 : ¬ s ≥ e := by omega
    have h3 : ¬ (e - s ≤ 0) := by omega
    simp [linkgifRun, hcond, hdur, hst, het, h1, hgt, orderAndDurationChecks,
      h2, h3, hlong]
  · intro env hre hurl hdn
    have hcond : (env.resolveError || env.mediaUrl.isNone) = false := by
      simp [hre, hurl]
    cases hst : to_secs env.start_time with
    | none => simp [linkgifRun, hcond, hdn, hst]
    | some s =>
      cases het : to_secs env.end_time with
      | none => simp [linkgifRun, hcond, hdn, hst, het]
      | some e =>
        cases hfp : env.ffprobeResult with
        | none =>
          simp only [linkgifRun, hcond, Bool.false_eq_true, if_false, hdn,
            hst, het, hfp, Option.isNone_none]
          split_ifs <;> simp [orderAndDurationChecks] <;> split_ifs <;> rfl
        | some d =>
          simp only [linkgifRun, hcond, Bool.false_eq_true, if_false, hdn,
            hst, het, hfp, Option.isNone_none]
          split_ifs <;> simp [orderAndDurationChecks] <;> split_ifs <;> rfl

/-- Witness for C3 (amended), first clause, at a concrete 9-second
local-file request. -/
theorem duration_reject_amended_witness :
    filegifRun ⟨"b.mkv", 7, true, "0:00", "0:09"⟩ = (.durationTooLong, true) :=
  duration_reject_amended.1 ⟨"b.mkv", 7, true, "0:00", "0:09"⟩ 0 9 (by decide)
    (by decide) (by decide) (by decide) (by decide) (by decide) (by decide)
    (by decide)

end GifGetter
